import Mathlib

/-!
Shallow embedding of the supply-chain risk-monitoring agent backend
(NestJS service: data-source registry, mock analysis engine, risk scorer,
plan generation stage, and run coordinator), together with proofs of the
specification claims about it.

JavaScript records (plain objects and Maps with string keys) are embedded
as association lists in insertion order; JS numbers as rationals; absent
or null fields as Option; thrown exceptions as Except or an Option error
component.  Wall-clock timestamps are threaded as explicit parameters and
log statements are not modelled.
-/

/- ### Generic association-list helpers (JS object / Map semantics) -/

/-- First-match lookup in an association list (JS object property read). -/
def alookup {α : Type} : List (String × α) → String → Option α
  | [], _ => none
  | (k, v) :: rest, k' => if k = k' then some v else alookup rest k'

/-- Numeric lookup with JS default: `m[k] || 0`. -/
def lookupCount (m : List (String × Nat)) (k : String) : Nat :=
  (alookup m k).getD 0

/-- JS `m[k] = (m[k] || 0) + v`: add to an existing key in place, else append. -/
def upsertAdd : List (String × Nat) → String → Nat → List (String × Nat)
  | [], k, v => [(k, v)]
  | (k', v') :: rest, k, v =>
      if k' = k then (k', v' + v) :: rest else (k', v') :: upsertAdd rest k v

/-- JS `Map.set`: overwrite an existing key in place, else append. -/
def mapSet {α : Type} : List (String × α) → String → α → List (String × α)
  | [], k, v => [(k, v)]
  | (k', v') :: rest, k, v =>
      if k' = k then (k', v) :: rest else (k', v') :: mapSet rest k v

/-- Keys of an association list, in order. -/
def keysOf {α : Type} (m : List (String × α)) : List String :=
  m.map Prod.fst

/-- Sum of the numeric values of an association list. -/
def sumValues (m : List (String × Nat)) : Nat :=
  (m.map Prod.snd).sum

/-- JS `[...new Set(l)]`: deduplicate keeping the first occurrence of each
element, in order. -/
def jsDedup {α : Type} [DecidableEq α] (l : List α) : List α :=
  l.foldl (fun acc x => if x ∈ acc then acc else acc ++ [x]) []

/- ### JS string / number coercion helpers -/

/-- Whether a character list starts with the given character list. -/
def seqStartsWith : List Char → List Char → Bool
  | [], _ => true
  | _ :: _, [] => false
  | a :: as, b :: bs => a == b && seqStartsWith as bs

/-- Whether a character list occurs contiguously inside another. -/
def seqContains (needle : List Char) : List Char → Bool
  | [] => needle.isEmpty
  | b :: bs => seqStartsWith needle (b :: bs) || seqContains needle bs

/-- JS `hay.includes(needle)`. -/
def containsStr (hay needle : String) : Bool :=
  seqContains needle.toList hay.toList

/-- JS `s.toLowerCase()` (ASCII, which covers every string the rules
compare; defined over the character list so the kernel can evaluate it). -/
def lowerStr (s : String) : String :=
  String.mk (s.toList.map Char.toLower)

/-- JS `s.trim()`: strip whitespace from both ends (defined over the
character list so the kernel can evaluate it). -/
def jsTrim (s : String) : String :=
  String.mk
    (((s.toList.dropWhile Char.isWhitespace).reverse.dropWhile
        Char.isWhitespace).reverse)

/-- JS truthiness of a possibly-absent string: false for undefined and "". -/
def truthy : Option String → Bool
  | some s => !(s == "")
  | none => false

/-- JS template interpolation of a possibly-absent string. -/
def jsStr : Option String → String
  | some s => s
  | none => "undefined"

/-- JS `a || b` where `a` is a possibly-absent string and `b` a string. -/
def jsOrStr (a : Option String) (b : String) : String :=
  if truthy a then jsStr a else b

/-- JS `a || b` on two possibly-absent strings. -/
def jsOrOption (a b : Option String) : Option String :=
  if truthy a then a else b

/-- JS `x > c` on a possibly-absent number (undefined compares false). -/
def qGt (x : Option ℚ) (c : ℚ) : Bool :=
  match x with
  | some v => decide (c < v)
  | none => false

/-- JS `x < c` on a possibly-absent number (undefined compares false). -/
def qLt (x : Option ℚ) (c : ℚ) : Bool :=
  match x with
  | some v => decide (v < c)
  | none => false

/-- JS template interpolation of a possibly-absent number. -/
def jsNumStr : Option ℚ → String
  | some v => toString v
  | none => "undefined"

/-- JS `x ?? alt` rendered as a string. -/
def nullishNumStr (x : Option ℚ) (alt : String) : String :=
  match x with
  | some v => toString v
  | none => alt

/- ### Entity enums (database/entities, TypeScript string enums) -/

inductive RiskSeverity where
  | low | medium | high | critical
deriving DecidableEq, Repr

/-- The TypeScript enum value backing each severity (all lowercase). -/
def sevString : RiskSeverity → String
  | .low => "low"
  | .medium => "medium"
  | .high => "high"
  | .critical => "critical"

inductive RiskStatus where
  | detected | analyzing | mitigating | resolved | false_positive
deriving DecidableEq, Repr

inductive OpportunityType where
  | cost_saving | time_saving | quality_improvement | market_expansion
  | supplier_diversification
deriving DecidableEq, Repr

inductive OpportunityStatus where
  | identified | evaluating | implementing | realized | expired
deriving DecidableEq, Repr

inductive PlanStatus where
  | draft | approved | in_progress | completed | cancelled
deriving DecidableEq, Repr

inductive AgentStatus where
  | idle | monitoring | analyzing | processing | error
deriving DecidableEq, Repr

/-- Risk entity row (risk.entity.ts).  The embedded sourceData snapshot,
createdAt and updatedAt are not needed by any claim and are omitted;
severity is Option because the scorer defends against a missing value. -/
structure Risk where
  id : String
  title : String
  description : String
  severity : Option RiskSeverity
  status : RiskStatus
  sourceType : Option String
  affectedRegion : Option String
  affectedSupplier : Option String
  estimatedCost : Option ℚ
  oemId : Option String
deriving DecidableEq, Repr

/-- Opportunity entity row (opportunity.entity.ts), claim-relevant fields. -/
structure Opportunity where
  id : String
  title : String
  description : String
  otype : OpportunityType
  status : OpportunityStatus
  oemId : Option String
deriving DecidableEq, Repr

/-- Mitigation plan entity row (mitigation-plan.entity.ts).  The free-form
metadata column and the date-string round trip are not modelled; the due
date is kept as a millisecond timestamp. -/
structure MitigationPlan where
  title : String
  description : String
  actions : List String
  status : PlanStatus
  riskId : Option String
  opportunityId : Option String
  assignedTo : Option String
  dueDateMs : Option Nat
deriving DecidableEq, Repr

/- ### Risk scorer (agent.service.ts computeRiskScore) -/

/-- The SEVERITY_WEIGHT record: critical 4, high 3, medium 2, low 1. -/
def SEVERITY_WEIGHT (s : String) : Option Nat :=
  if s = "critical" then some 4
  else if s = "high" then some 3
  else if s = "medium" then some 2
  else if s = "low" then some 1
  else none

/-- JS `SEVERITY_WEIGHT[sev] ?? 2`. -/
def weightOf (s : String) : Nat :=
  (SEVERITY_WEIGHT s).getD 2

/-- JS `(r.severity || 'medium').toLowerCase()`.  The enum values are
already lowercase strings. -/
def sevKey (r : Risk) : String :=
  lowerStr ((r.severity.map sevString).getD "medium")

/-- JS `r.sourceType || 'other'`. -/
def srcKey (r : Risk) : String :=
  jsOrStr r.sourceType "other"

structure RiskScoreResult where
  overallScore : ℤ
  breakdown : List (String × Nat)
  severityCounts : List (String × Nat)
deriving DecidableEq, Repr

/-- The for-loop of computeRiskScore: accumulates severityCounts,
breakdown and weightedSum left to right over the risks. -/
def scoreLoop :
    List Risk → List (String × Nat) → List (String × Nat) → Nat →
      List (String × Nat) × List (String × Nat) × Nat
  | [], sc, bd, w => (sc, bd, w)
  | r :: rs, sc, bd, w =>
      scoreLoop rs (upsertAdd sc (sevKey r) 1)
        (upsertAdd bd (srcKey r) (weightOf (sevKey r)))
        (w + weightOf (sevKey r))

/-- computeRiskScore: overall 0-100 score with breakdown by sourceType and
severity counts (agent.service.ts lines 361-389). -/
def computeRiskScore (risks : List Risk) : RiskScoreResult :=
  let t := scoreLoop risks [] [] 0
  let count := risks.length
  let avgSeverity : ℚ := if 0 < count then (t.2.2 : ℚ) / (count : ℚ) else 0
  { overallScore := min 100 (round (avgSeverity * 25)),
    breakdown := t.2.1,
    severityCounts := t.1 }

/-- Weight table exactly as the claim words it: critical=4, high=3,
medium=2, low=1, missing severity 2. -/
def claimWeight (r : Risk) : Nat :=
  match r.severity with
  | some .critical => 4
  | some .high => 3
  | some .medium => 2
  | some .low => 1
  | none => 2

/-- Weighted sum as the claim words it. -/
def claimWeightedSum (rs : List Risk) : Nat :=
  (rs.map claimWeight).sum

/-- Sum of the code-side weights of a list of risks. -/
def sumWeights (rs : List Risk) : Nat :=
  (rs.map (fun r => weightOf (sevKey r))).sum

/- ### Analysis engine mock fallback (agent-orchestrator.service.ts) -/

/-- A raw data item payload as fed to the analyzers.  JS passes untyped
objects; the union of the fields the mock rules read is modelled, each
optional (an absent field reads as undefined). -/
structure DataItem where
  condition : Option String := none
  city : Option String := none
  country : Option String := none
  title : Option String := none
  description : Option String := none
  estimatedDelay : Option ℚ := none
  congestionLevel : Option String := none
  origin : Option String := none
  destination : Option String := none
  priceChangePercent : Option ℚ := none
  priceChange : Option ℚ := none
  commodity : Option String := none
  status : Option String := none
  routeStatus : Option String := none
  delayDays : Option ℚ := none
  disruptionReason : Option String := none
deriving DecidableEq, Repr

/-- A risk candidate produced by analysis (before persistence).  A null
affectedSupplier and an absent one are both modelled as none. -/
structure RiskCand where
  title : String
  description : String
  severity : Option RiskSeverity := none
  affectedRegion : Option String := none
  affectedSupplier : Option String := none
  estimatedImpact : Option String := none
  estimatedCost : Option ℚ := none
deriving DecidableEq, Repr

/-- An opportunity candidate produced by analysis. -/
structure OppCand where
  title : String
  description : String
  otype : Option OpportunityType := none
  affectedRegion : Option String := none
  potentialBenefit : Option String := none
  estimatedValue : Option ℚ := none
deriving DecidableEq, Repr

structure AnalysisOutput where
  risks : List RiskCand
  opportunities : List OppCand
deriving DecidableEq, Repr

/-- The context argument of analyzeItemRisksOnly (a TS union type). -/
inductive AnalysisContext where
  | global_risk | shipping_routes
deriving DecidableEq, Repr

/-- mockAnalyzeDataItem, weather branch: condition Storm or Rain gives one
HIGH risk for the city and country. -/
def weatherMock (d : DataItem) : List RiskCand :=
  if d.condition = some "Storm" ∨ d.condition = some "Rain" then
    [{ title := "Weather Alert: " ++ jsStr d.condition ++ " in " ++ jsStr d.city,
       description := "Severe weather conditions detected in " ++ jsStr d.city ++
         ", " ++ jsStr d.country ++
         ". This may impact shipping and logistics operations.",
       severity := some .high,
       affectedRegion := some (jsStr d.city ++ ", " ++ jsStr d.country),
       estimatedImpact := some "Potential delays in shipping and transportation",
       estimatedCost := some 50000 }]
  else []

/-- mockAnalyzeDataItem, news branch: lowercased title containing
disruption, closure or delay gives one MEDIUM risk. -/
def newsMock (d : DataItem) : List RiskCand :=
  let title := jsOrStr (d.title.map lowerStr) ""
  if (containsStr title "disruption" || containsStr title "closure" ||
      containsStr title "delay") = true then
    [{ title := "News Alert: " ++ jsStr d.title,
       description := jsOrStr d.description "Supply chain disruption detected in news",
       severity := some .medium,
       estimatedImpact := some "Potential supply chain impact",
       estimatedCost := some 30000 }]
  else []

/-- mockAnalyzeDataItem, traffic branch. -/
def trafficMock (d : DataItem) : List RiskCand :=
  if qGt d.estimatedDelay 60 = true ∨ d.congestionLevel = some "severe" then
    [{ title := "Traffic Delay: " ++ jsStr d.origin ++ " to " ++ jsStr d.destination,
       description := "Severe traffic congestion detected. Estimated delay: " ++
         jsNumStr d.estimatedDelay ++ " minutes.",
       severity := some .medium,
       affectedRegion := some (jsStr d.origin ++ " - " ++ jsStr d.destination),
       estimatedImpact := some ("Transportation delay of " ++
         jsNumStr d.estimatedDelay ++ " minutes"),
       estimatedCost := some 10000 }]
  else []

/-- mockAnalyzeDataItem, market branch.  JS computes
Math.abs(priceChange) times 1000; a missing priceChange would give NaN,
modelled as an absent value. -/
def marketMock (d : DataItem) : List OppCand :=
  if qLt d.priceChangePercent (-5) = true then
    [{ title := "Price Drop Opportunity: " ++ jsStr d.commodity,
       description := "Significant price drop detected for " ++ jsStr d.commodity ++
         ". Consider strategic purchasing.",
       otype := some .cost_saving,
       potentialBenefit := some ("Potential cost savings on " ++
         jsStr d.commodity ++ " procurement"),
       estimatedValue := d.priceChange.map (fun v => |v| * 1000) }]
  else []

/-- mockAnalyzeDataItem: deterministic fallback analysis used whenever no
LLM backend is configured (sourceType dispatch; at most one branch fires
for a given sourceType). -/
def mockAnalyzeDataItem (sourceType : String) (d : DataItem) : AnalysisOutput :=
  { risks :=
      (if sourceType = "weather" then weatherMock d else []) ++
      (if sourceType = "news" then newsMock d else []) ++
      (if sourceType = "traffic" then trafficMock d else []),
    opportunities :=
      if sourceType = "market" then marketMock d else [] }

/-- mockAnalyzeItemRisksOnly, global_risk branch: the first truthy of
title and description, when it contains disruption, crisis or shortage
case-insensitively, gives one MEDIUM Global risk. -/
def globalRiskMock (d : DataItem) : List RiskCand :=
  let t := jsOrStr d.title (jsOrStr d.description "")
  if 0 < t.length ∧
      (containsStr (lowerStr t) "disruption" || containsStr (lowerStr t) "crisis" ||
       containsStr (lowerStr t) "shortage") = true then
    [{ title := "Global risk: " ++ t.take 60,
       description := jsOrStr d.description t,
       severity := some .medium,
       affectedRegion := some "Global",
       affectedSupplier := none,
       estimatedImpact := some "Potential global supply chain impact",
       estimatedCost := some 50000 }]
  else []

/-- mockAnalyzeItemRisksOnly, shipping_routes branch. -/
def shippingMock (d : DataItem) : List RiskCand :=
  let status := jsOrOption d.status d.routeStatus
  if status = some "disrupted" ∨ status = some "delayed" ∨ qGt d.delayDays 0 = true then
    [{ title := "Shipping disruption: " ++ jsStr d.origin ++ " → " ++ jsStr d.destination,
       description := "Route disruption (" ++ jsOrStr status "delayed" ++ "). " ++
         jsOrStr d.disruptionReason "Unknown cause" ++
         ". Delay: " ++ nullishNumStr d.delayDays "?" ++ " days.",
       severity := some (if qGt d.delayDays 7 then .high else .medium),
       affectedRegion := some (jsStr d.origin ++ " - " ++ jsStr d.destination),
       affectedSupplier := none,
       estimatedImpact := some "Delivery delays and inventory risk",
       estimatedCost := some 25000 }]
  else []

/-- mockAnalyzeItemRisksOnly: risks-only deterministic fallback, selected
by context (the sourceType argument is not read by the mock). -/
def mockAnalyzeItemRisksOnly (_sourceType : String) (d : DataItem)
    (context : AnalysisContext) : List RiskCand :=
  (if context = .global_risk then globalRiskMock d else []) ++
  (if context = .shipping_routes then shippingMock d else [])

/- ### Source registry (data-source-manager.service.ts) -/

/-- A registered connector as seen during one fetchDataSourcesByTypes call:
the outcome of its availability check and of its fetch (an error value
models a thrown exception). -/
structure Connector (α : Type) where
  isAvailable : Except String Bool
  fetchData : Except String (List α)

/-- The per-type body of the fetch loop: unregistered, unavailable and
throwing connectors all yield an empty list. -/
def fetchOne {α : Type} (reg : String → Option (Connector α)) (t : String) : List α :=
  match reg t with
  | none => []
  | some c =>
    match c.isAvailable with
    | .error _ => []
    | .ok false => []
    | .ok true =>
      match c.fetchData with
      | .error _ => []
      | .ok d => d

/-- fetchDataSourcesByTypes: fetch only the given source types, building a
Map from type to item list (data-source-manager.service.ts lines 86-125). -/
def fetchDataSourcesByTypes {α : Type} (reg : String → Option (Connector α))
    (types : List String) : List (String × List α) :=
  types.foldl (fun acc t => mapSet acc t (fetchOne reg t)) []

/- ### Tenant scope (agent.service.ts getOemScope / buildDataSourceParams) -/

/-- OEM entity row (claim-relevant fields). -/
structure Oem where
  id : String
  name : String
deriving DecidableEq, Repr

/-- Supplier entity row (claim-relevant fields).  name is non-nullable in
the entity but the scope builder checks truthiness anyway, so all fields
are Option here. -/
structure Supplier where
  name : Option String := none
  location : Option String := none
  city : Option String := none
  country : Option String := none
  region : Option String := none
  commodities : Option String := none
deriving DecidableEq, Repr

structure OemScope where
  oemId : String
  oemName : String
  supplierNames : List String
  locations : List String
  cities : List String
  countries : List String
  regions : List String
  commodities : List String
deriving DecidableEq, Repr

/-- The per-supplier pushes of one string field: a value is collected when
truthy, in supplier order. -/
def fieldVals (f : Supplier → Option String) (ss : List Supplier) : List String :=
  ss.filterMap (fun s => if truthy (f s) then some (jsStr (f s)) else none)

/-- JS s.commodities.split on comma or semicolon, trimmed, empties dropped
(run only when the field is truthy). -/
def commodityParts (s : Supplier) : List String :=
  if truthy s.commodities then
    (((jsStr s.commodities).split (fun c => c = ',' || c = ';')).map
      jsTrim).filter (fun c => c ≠ "")
  else []

/-- getOemScope: build the OEM scope from its suppliers; every list field
is deduplicated via a JS Set (agent.service.ts lines 129-165).  The OEM
lookup result is passed in; a missing OEM gives none. -/
def getOemScope (oemId : String) (oem : Option Oem) (suppliers : List Supplier) :
    Option OemScope :=
  match oem with
  | none => none
  | some o =>
    some { oemId := oemId,
           oemName := o.name,
           supplierNames := jsDedup (fieldVals Supplier.name suppliers),
           locations := jsDedup (fieldVals Supplier.location suppliers),
           cities := jsDedup (fieldVals Supplier.city suppliers),
           countries := jsDedup (fieldVals Supplier.country suppliers),
           regions := jsDedup (fieldVals Supplier.region suppliers),
           commodities := jsDedup (suppliers.flatMap commodityParts) }

structure DataSourceParams where
  cities : List String
  commodities : List String
  routes : List (String × String)
  keywords : List String
deriving DecidableEq, Repr

/-- The fixed fallback city list. -/
def defaultCities : List String :=
  ["New York", "London", "Tokyo", "Mumbai", "Shanghai"]

/-- The fixed fallback commodity list. -/
def defaultCommodities : List String :=
  ["steel", "copper", "oil", "grain", "semiconductors"]

/-- buildDataSourceParams: derive fetch parameters from an OEM scope
(agent.service.ts lines 168-195). -/
def buildDataSourceParams (scope : OemScope) : DataSourceParams :=
  let cities :=
    if 0 < scope.cities.length then scope.cities
    else if 0 < scope.locations.length then scope.locations.take 10
    else defaultCities
  let commodities :=
    if 0 < scope.commodities.length then scope.commodities
    else defaultCommodities
  let routes :=
    if 2 ≤ cities.length then
      (cities.getD 0 "", cities.getD 1 "") ::
        (if 4 ≤ cities.length then [(cities.getD 2 "", cities.getD 3 "")] else [])
    else [("New York", "Los Angeles")]
  let keywords :=
    (["supply chain", "manufacturing", "logistics"] ++
      scope.commodities.take 3).filter (fun k => k ≠ "")
  { cities := cities, commodities := commodities, routes := routes,
    keywords := keywords }

/- ### Plan generation stage (agent.service.ts runAnalysisForOem, steps 4-8) -/

/-- Plan payload returned by a generator before persistence. -/
structure PlanData where
  title : String
  description : String
  actions : List String
  assignedTo : Option String
  dueDateMs : Option Nat
deriving DecidableEq, Repr

/-- mockGenerateCombinedMitigationPlan: fixed template combined plan for a
supplier (metadata column not modelled). -/
def mockGenerateCombinedMitigationPlan (now : Nat) (supplierName : String)
    (risks : List Risk) : PlanData :=
  { title := "Combined Mitigation Plan: " ++ supplierName,
    description := "Unified contingency plan for " ++ supplierName ++
      " addressing " ++ toString risks.length ++
      " risk(s). Prioritize supplier communication and alternative sourcing.",
    actions :=
      ["Contact supplier for status and expected recovery",
       "Assess impact on production schedule and customer orders",
       "Identify and qualify backup suppliers or routes",
       "Update inventory and safety stock targets",
       "Document and communicate plan to stakeholders"],
    assignedTo := some "Supply Chain Team",
    dueDateMs := some (now + 7 * 24 * 60 * 60 * 1000) }

/-- mockGenerateMitigationPlan: fixed template per-risk plan. -/
def mockGenerateMitigationPlan (now : Nat) (risk : Risk) : PlanData :=
  { title := "Mitigation Plan: " ++ risk.title,
    description := "Comprehensive mitigation strategy to address " ++
      jsStr (risk.severity.map sevString) ++ " severity risk",
    actions :=
      ["Assess immediate impact on operations",
       "Contact affected suppliers for status update",
       "Identify alternative suppliers or routes",
       "Implement contingency logistics plan",
       "Monitor situation and update stakeholders"],
    assignedTo := some "Supply Chain Team",
    dueDateMs := some (now + 7 * 24 * 60 * 60 * 1000) }

/-- mockGenerateOpportunityPlan: fixed template opportunity plan. -/
def mockGenerateOpportunityPlan (now : Nat) (_opportunity : Opportunity) : PlanData :=
  { title := "Action Plan: " ++ _opportunity.title,
    description := "Strategic plan to capitalize on identified opportunity",
    actions :=
      ["Evaluate opportunity feasibility",
       "Calculate potential ROI",
       "Develop implementation timeline",
       "Secure necessary approvals",
       "Execute opportunity capture plan"],
    assignedTo := some "Strategic Planning Team",
    dueDateMs := some (now + 14 * 24 * 60 * 60 * 1000) }

/-- saveMitigationPlan: persist a plan row in DRAFT status attached to at
most one risk or one opportunity. -/
def saveMitigationPlan (pd : PlanData) (riskId : Option String)
    (opportunityId : Option String) : MitigationPlan :=
  { title := pd.title, description := pd.description, actions := pd.actions,
    status := .draft, riskId := riskId, opportunityId := opportunityId,
    assignedTo := pd.assignedTo, dueDateMs := pd.dueDateMs }

/-- Persisted risk-score row (supply-chain-risk-score.entity.ts). -/
structure ScoreRow where
  oemId : String
  score : RiskScoreResult
  riskIds : List String
deriving DecidableEq, Repr

/-- The persistent store the cycle reads and writes. -/
structure AgentDb where
  risks : List Risk
  opportunities : List Opportunity
  plans : List MitigationPlan
  riskScores : List ScoreRow
deriving DecidableEq, Repr

/-- Plans attached to a risk id (the mitigationPlans relation of a risk row). -/
def plansForRisk (plans : List MitigationPlan) (rid : String) : List MitigationPlan :=
  plans.filter (fun p => p.riskId = some rid)

/-- Plans attached to an opportunity id. -/
def plansForOpp (plans : List MitigationPlan) (oid : String) : List MitigationPlan :=
  plans.filter (fun p => p.opportunityId = some oid)

/-- Append a newly generated plan row to the store. -/
def addPlan (db : AgentDb) (pd : PlanData) (riskId : Option String)
    (opportunityId : Option String) : AgentDb :=
  { db with plans := db.plans ++ [saveMitigationPlan pd riskId opportunityId] }

/-- JS trimmed supplier key of a risk: `(risk.affectedSupplier || '').trim()`. -/
def supplierKey (r : Risk) : String :=
  jsTrim (jsOrStr r.affectedSupplier "")

/-- Append a risk to its group in an association list of groups, keeping
group insertion order. -/
def upsertGroup : List (String × List Risk) → String → Risk →
    List (String × List Risk)
  | [], k, r => [(k, [r])]
  | (k', g) :: rest, k, r =>
      if k' = k then (k', g ++ [r]) :: rest else (k', g) :: upsertGroup rest k r

/-- The risksBySupplier map: group the risks by trimmed affectedSupplier,
skipping blank keys. -/
def risksBySupplier (rs : List Risk) : List (String × List Risk) :=
  rs.foldl (fun m r =>
    let key := supplierKey r
    if key = "" then m else upsertGroup m key r) []

/-- JS `risksBySupplier.has(k)`. -/
def hasGroupKey (m : List (String × List Risk)) (k : String) : Bool :=
  (alookup m k).isSome

/-- The DETECTED risks of an OEM, in store order. -/
def detectedRisksOf (db : AgentDb) (oemId : String) : List Risk :=
  db.risks.filter (fun r => r.oemId = some oemId ∧ r.status = .detected)

/-- The ids the combined per-supplier step attaches plans to: the first
risk of each supplier group. -/
def combinedHeadIds (db : AgentDb) (oemId : String) : List String :=
  (risksBySupplier (detectedRisksOf db oemId)).filterMap
    (fun g => g.2.head?.map Risk.id)

/-- One iteration of the combined-plan loop: generate and persist a
combined plan for a supplier group, attached to the first risk of the
group.  There is no existing-plan guard on this path. -/
def combinedStep (now : Nat) (acc : AgentDb) (g : String × List Risk) : AgentDb :=
  addPlan acc (mockGenerateCombinedMitigationPlan now g.1 g.2)
    (g.2.head?.map Risk.id) none

/-- One iteration of the per-risk loop: skip a risk whose loaded relation
(from db1, the store after the combined loop) already has a plan, or whose
supplier key has a combined group; otherwise persist an individual plan. -/
def indivStep (now : Nat) (db1 : AgentDb) (groups : List (String × List Risk))
    (acc : AgentDb) (r : Risk) : AgentDb :=
  if 0 < (plansForRisk db1.plans r.id).length then acc
  else if hasGroupKey groups (supplierKey r) then acc
  else addPlan acc (mockGenerateMitigationPlan now r) (some r.id) none

/-- One iteration of the opportunity loop: persist a plan only for an
opportunity whose loaded relation (from db2, the store after the per-risk
loop) has no plan. -/
def oppStep (now : Nat) (db2 : AgentDb) (acc : AgentDb) (p : Opportunity) : AgentDb :=
  if (plansForOpp db2.plans p.id).length = 0 then
    addPlan acc (mockGenerateOpportunityPlan now p) none (some p.id)
  else acc

/-- Steps 4-8 of runAnalysisForOem with no LLM backend configured
(agent.service.ts lines 289-358): reload all DETECTED risks of the OEM,
persist a risk-score row, persist one combined mock plan per supplier
group (attached to the first risk of the group), then one individual mock
plan per remaining DETECTED risk that has no plan and no supplier group,
then one mock plan per IDENTIFIED opportunity without plans.  The relation
snapshots the per-risk and per-opportunity loops test are the ones loaded
by their respective find calls, hence the fixed db1 and db2 arguments of
the step functions. -/
def runPlansAndScore (now : Nat) (db : AgentDb) (oemId : String) : AgentDb :=
  let allRisks := detectedRisksOf db oemId
  let dbS : AgentDb :=
    { db with riskScores := db.riskScores ++
        [{ oemId := oemId, score := computeRiskScore allRisks,
           riskIds := allRisks.map Risk.id }] }
  let groups := risksBySupplier allRisks
  let db1 := groups.foldl (combinedStep now) dbS
  let db2 := allRisks.foldl (indivStep now db1 groups) db1
  let opps := db.opportunities.filter
      (fun p => p.status = .identified ∧ p.oemId = some oemId)
  opps.foldl (oppStep now db2) db2

/- ### Run coordinator (agent.service.ts monitorAndAnalyze and
triggerManualAnalysis) -/

/-- The agent-status singleton row (agent-status.entity.ts); lastUpdated
and the lastProcessedData timestamp are not modelled. -/
structure AgentStatusRec where
  status : AgentStatus
  currentTask : Option String
  risksDetected : Nat
  opportunitiesIdentified : Nat
  plansGenerated : Nat
  oemsProcessed : List String
deriving DecidableEq, Repr

/-- Everything the coordinator persists: the status singleton (none before
first startup) and the entity store. -/
structure StoreState where
  statusRec : Option AgentStatusRec
  db : AgentDb
deriving DecidableEq, Repr

/-- Full coordinator state: the in-memory single-flight flag plus the store. -/
structure AgentState where
  isRunning : Bool
  store : StoreState
deriving DecidableEq, Repr

/-- The collaborators of one cycle.  runOem is the effect of
runAnalysisForOem on the store: its final store and, when it threw, the
exception message. -/
structure AgentEnv where
  oems : List Oem
  scopeOf : String → Option OemScope
  runOem : OemScope → StoreState → StoreState × Option String

/-- updateStatus: mutate the singleton status row if it exists. -/
def updateStatusRec (st : StoreState) (s : AgentStatus) (task : Option String) :
    StoreState :=
  match st.statusRec with
  | none => st
  | some r0 =>
    { st with statusRec := some { r0 with status := s, currentTask := task } }

/-- The cumulative-counter update at the end of a successful cycle:
repository counts over all rows, plus the processed-OEM name list. -/
def updateCounters (st : StoreState) (names : List String) : StoreState :=
  match st.statusRec with
  | none => st
  | some r0 =>
    { st with statusRec := some { r0 with
          risksDetected := st.db.risks.length,
          opportunitiesIdentified := st.db.opportunities.length,
          plansGenerated := st.db.plans.length,
          oemsProcessed := names } }

/-- The for-loop over OEMs inside monitorAndAnalyze: skip OEMs without a
scope, run each remaining one in order, stopping at the first exception. -/
def oemLoop (env : AgentEnv) : List Oem → StoreState → StoreState × Option String
  | [], st => (st, none)
  | o :: rest, st =>
    match env.scopeOf o.id with
    | none => oemLoop env rest st
    | some scope =>
      match env.runOem scope st with
      | (st', none) => oemLoop env rest st'
      | (st', some m) => (st', some m)

/-- monitorAndAnalyze (agent.service.ts lines 391-438): the scheduled
all-OEMs cycle.  A trigger while isRunning is set returns at once;
otherwise the try body runs every OEM, a caught exception writes the ERROR
status, and the finally block clears the flag. -/
def monitorAndAnalyze (env : AgentEnv) (s : AgentState) : AgentState :=
  if s.isRunning then s
  else
    let body : StoreState × Option String :=
      if env.oems.isEmpty then
        (updateStatusRec s.store .idle (some "No OEMs to process"), none)
      else
        match oemLoop env env.oems s.store with
        | (st, none) =>
          (updateStatusRec (updateCounters st (env.oems.map Oem.name)) .idle
            (some "Monitoring cycle completed"), none)
        | (st, some m) => (st, some m)
    match body with
    | (st, none) => { isRunning := false, store := st }
    | (st, some m) =>
      { isRunning := false,
        store := updateStatusRec st .error (some ("Error: " ++ m)) }

/-- triggerManualAnalysis (agent.service.ts lines 523-564).  With an OEM id
the body runs under try/finally only: the flag is always cleared but an
exception from the run propagates to the caller (the second component).
Without an OEM id it defers to monitorAndAnalyze, which catches. -/
def triggerManualAnalysis (env : AgentEnv) (s : AgentState)
    (oemId : Option String) : AgentState × Option String :=
  if s.isRunning then (s, none)
  else
    match oemId with
    | some oid =>
      let body : StoreState × Option String :=
        match env.scopeOf oid with
        | none => (s.store, none)
        | some scope =>
          let st0 := updateStatusRec s.store .monitoring
            (some ("Manual run for OEM: " ++ scope.oemName))
          match env.runOem scope st0 with
          | (st1, none) =>
            (updateStatusRec (updateCounters st1 [scope.oemName]) .idle
              (some "Manual analysis completed"), none)
          | (st1, some m) => (st1, some m)
      ({ isRunning := false, store := body.1 }, body.2)
    | none => (monitorAndAnalyze env s, none)

/- ### Concrete inputs used by witnesses and counterexamples -/

/-- A registry with one healthy connector (news) and one whose fetch
throws (weather). -/
def regWitness : String → Option (Connector Nat) :=
  fun t =>
    if t = "news" then some ⟨Except.ok true, Except.ok [7, 8]⟩
    else if t = "weather" then some ⟨Except.ok true, Except.error "fetch failed"⟩
    else none

/-- The weather record of the spec test vector. -/
def chennaiStorm : DataItem :=
  { condition := some "Storm", city := some "Chennai", country := some "IN" }

/-- A news record whose title has no keyword but whose description says
crisis. -/
def quietTitleCrisisDescription : DataItem :=
  { title := some "calm day", description := some "crisis in logistics" }

/-- A news record whose title says DISRUPTION. -/
def disruptionHeadline : DataItem :=
  { title := some "Major DISRUPTION ahead" }

/-- A detected risk attributed to supplier Acme. -/
def riskAcme : Risk :=
  { id := "r1", title := "Port closure", description := "d",
    severity := some .high, status := .detected, sourceType := some "weather",
    affectedRegion := none, affectedSupplier := some "Acme",
    estimatedCost := none, oemId := some "oem1" }

/-- An existing plan already attached to riskAcme. -/
def existingPlanAcme : MitigationPlan :=
  { title := "existing", description := "d", actions := [], status := .draft,
    riskId := some "r1", opportunityId := none, assignedTo := none,
    dueDateMs := none }

/-- A store holding riskAcme with one plan already attached. -/
def dbAcme : AgentDb :=
  { risks := [riskAcme], opportunities := [], plans := [existingPlanAcme],
    riskScores := [] }

/-- A detected risk with no affected supplier. -/
def riskNoSupplier : Risk :=
  { id := "r2", title := "Delay", description := "d", severity := some .low,
    status := .detected, sourceType := some "news", affectedRegion := none,
    affectedSupplier := none, estimatedCost := none, oemId := some "oem1" }

/-- An existing plan attached to riskNoSupplier. -/
def planForR2 : MitigationPlan :=
  { title := "existing r2", description := "d", actions := [], status := .draft,
    riskId := some "r2", opportunityId := none, assignedTo := none,
    dueDateMs := none }

/-- An identified opportunity of the same OEM. -/
def oppIdentified : Opportunity :=
  { id := "p1", title := "Buy low", description := "d", otype := .cost_saving,
    status := .identified, oemId := some "oem1" }

/-- An existing plan attached to oppIdentified. -/
def planForOpp1 : MitigationPlan :=
  { title := "existing p1", description := "d", actions := [], status := .draft,
    riskId := none, opportunityId := some "p1", assignedTo := none,
    dueDateMs := none }

/-- A store where both the risk (no supplier) and the opportunity already
have a plan. -/
def dbGuarded : AgentDb :=
  { risks := [riskNoSupplier], opportunities := [oppIdentified],
    plans := [planForR2, planForOpp1], riskScores := [] }

/-- An empty entity store. -/
def emptyDb : AgentDb :=
  { risks := [], opportunities := [], plans := [], riskScores := [] }

/-- An idle status row with zero counters. -/
def statusIdle : AgentStatusRec :=
  { status := .idle, currentTask := none, risksDetected := 0,
    opportunitiesIdentified := 0, plansGenerated := 0, oemsProcessed := [] }

/-- An environment whose per-OEM run succeeds without effects. -/
def envSimple : AgentEnv :=
  { oems := [⟨"oem1", "OEM One"⟩],
    scopeOf := fun _ => none,
    runOem := fun _ st => (st, none) }

/-- The empty scope of OEM oem1. -/
def scopeOem1 : OemScope :=
  { oemId := "oem1", oemName := "OEM One", supplierNames := [], locations := [],
    cities := [], countries := [], regions := [], commodities := [] }

/-- An environment whose per-OEM run always throws the message boom. -/
def envBoom : AgentEnv :=
  { oems := [⟨"oem1", "OEM One"⟩],
    scopeOf := fun oid => if oid = "oem1" then some scopeOem1 else none,
    runOem := fun _ st => (st, some "boom") }

/-- A coordinator state whose single-flight flag is set. -/
def stateRunning : AgentState :=
  { isRunning := true, store := { statusRec := some statusIdle, db := emptyDb } }

/-- A coordinator state at rest. -/
def stateIdle : AgentState :=
  { isRunning := false, store := { statusRec := some statusIdle, db := emptyDb } }

/-- Weighted sum of an association list of severity counts, with the
unknown-severity default weight 2. -/
def weightSumOf (m : List (String × Nat)) : Nat :=
  (m.map (fun p => weightOf p.1 * p.2)).sum

/- ### Helper lemmas -/

theorem lookupCount_upsertAdd (m : List (String × Nat)) (k k' : String) (v : Nat) :
    lookupCount (upsertAdd m k v) k' = lookupCount m k' + (if k = k' then v else 0) := by
  induction m with
  | nil =>
    simp only [upsertAdd, lookupCount, alookup]
    by_cases h : k = k' <;> simp [h]
  | cons a t ih =>
    obtain ⟨ka, va⟩ := a
    simp only [upsertAdd]
    by_cases h1 : ka = k
    · subst h1
      rw [if_pos rfl]
      simp only [lookupCount, alookup]
      by_cases h2 : ka = k' <;> simp [h2]
    · rw [if_neg h1]
      simp only [lookupCount, alookup] at ih ⊢
      by_cases h2 : ka = k'
      · have hkk : ¬ k = k' := fun hk => h1 (by rw [hk, ← h2])
        simp [h2, hkk]
      · simp [h2, ih]

theorem sumValues_upsertAdd (m : List (String × Nat)) (k : String) (v : Nat) :
    sumValues (upsertAdd m k v) = sumValues m + v := by
  induction m with
  | nil => simp [upsertAdd, sumValues]
  | cons a t ih =>
    obtain ⟨ka, va⟩ := a
    by_cases h : ka = k <;> simp [upsertAdd, h, sumValues] at ih ⊢ <;> omega

theorem weightSumOf_upsertAdd (m : List (String × Nat)) (k : String) (v : Nat) :
    weightSumOf (upsertAdd m k v) = weightSumOf m + weightOf k * v := by
  induction m with
  | nil => simp [upsertAdd, weightSumOf]
  | cons a t ih =>
    obtain ⟨ka, va⟩ := a
    by_cases h : ka = k
    · subst h; simp [upsertAdd, weightSumOf, Nat.mul_add]; omega
    · simp [upsertAdd, h, weightSumOf] at ih ⊢; omega

theorem weightOf_sevKey_aux (o : Option RiskSeverity) :
    weightOf (lowerStr ((o.map sevString).getD "medium")) =
      (match o with
       | some .critical => 4
       | some .high => 3
       | some .medium => 2
       | some .low => 1
       | none => 2) := by
  rcases o with _ | s
  · decide
  · cases s <;> decide

theorem weightOf_sevKey (r : Risk) : weightOf (sevKey r) = claimWeight r :=
  weightOf_sevKey_aux r.severity

theorem sumWeights_eq_claim (rs : List Risk) : sumWeights rs = claimWeightedSum rs := by
  induction rs with
  | nil => rfl
  | cons r t ih =>
    simp only [sumWeights, claimWeightedSum, List.map_cons, List.sum_cons] at ih ⊢
    rw [weightOf_sevKey, ih]

theorem scoreLoop_w (rs : List Risk) :
    ∀ sc bd w, (scoreLoop rs sc bd w).2.2 = w + sumWeights rs := by
  induction rs with
  | nil => intro sc bd w; simp [scoreLoop, sumWeights]
  | cons r t ih =>
    intro sc bd w
    simp [scoreLoop, ih, sumWeights] at ih ⊢
    omega

theorem scoreLoop_sev (rs : List Risk) :
    ∀ sc bd w k, lookupCount (scoreLoop rs sc bd w).1 k =
      lookupCount sc k + rs.countP (fun r => sevKey r == k) := by
  induction rs with
  | nil => intro sc bd w k; simp [scoreLoop]
  | cons r t ih =>
    intro sc bd w k
    rw [scoreLoop, ih, lookupCount_upsertAdd, List.countP_cons]
    by_cases h : sevKey r = k <;> (simp [h]; try omega)

theorem scoreLoop_bd (rs : List Risk) :
    ∀ sc bd w k, lookupCount (scoreLoop rs sc bd w).2.1 k =
      lookupCount bd k + sumWeights (rs.filter (fun r => srcKey r == k)) := by
  induction rs with
  | nil => intro sc bd w k; simp [scoreLoop, sumWeights]
  | cons r t ih =>
    intro sc bd w k
    rw [scoreLoop, ih, lookupCount_upsertAdd, List.filter_cons]
    by_cases h : srcKey r = k <;> (simp [h, sumWeights]; try omega)

theorem scoreLoop_vals (rs : List Risk) :
    ∀ sc bd w, sumValues (scoreLoop rs sc bd w).2.1 = sumValues bd + sumWeights rs := by
  induction rs with
  | nil => intro sc bd w; simp [scoreLoop, sumWeights]
  | cons r t ih =>
    intro sc bd w
    rw [scoreLoop, ih, sumValues_upsertAdd]
    simp [sumWeights]
    omega

theorem scoreLoop_wsum (rs : List Risk) :
    ∀ sc bd w, weightSumOf (scoreLoop rs sc bd w).1 = weightSumOf sc + sumWeights rs := by
  induction rs with
  | nil => intro sc bd w; simp [scoreLoop, sumWeights]
  | cons r t ih =>
    intro sc bd w
    rw [scoreLoop, ih, weightSumOf_upsertAdd]
    simp [sumWeights]
    omega

theorem min_round_eq (x : ℚ) : min (100 : ℤ) (round x) = round (min (100 : ℚ) x) := by
  rcases le_total x 100 with h | h
  · rw [min_eq_right h]
    have hr : round x ≤ (100 : ℤ) := by
      have h2 : round x ≤ round (100 : ℚ) := by
        rw [round_eq, round_eq]
        exact Int.floor_le_floor (by linarith)
      simpa using h2
    exact min_eq_right hr
  · rw [min_eq_left h]
    have hr : (100 : ℤ) ≤ round x := by
      have h2 : round (100 : ℚ) ≤ round x := by
        rw [round_eq, round_eq]
        exact Int.floor_le_floor (by linarith)
      simpa using h2
    rw [min_eq_left hr]
    norm_num

/- ### Claim C2 -/

/-- C2: for every list of risks the risk scorer returns
overallScore = round(min(100, (weightedSum / count) * 25)) when count > 0
and 0 when the list is empty, with the severity weights critical=4 high=3
medium=2 low=1 and weight 2 for a missing severity; severityCounts counts
the risks per severity key, breakdown accumulates the weight per
sourceType key (default key "other"), and the empty list gives exactly
overallScore 0 with empty maps. -/
theorem computeRiskScore_spec (rs : List Risk) :
    ((computeRiskScore rs).overallScore =
      if rs.length = 0 then 0
      else round (min (100 : ℚ) (((claimWeightedSum rs : ℚ) / (rs.length : ℚ)) * 25)))
    ∧ (∀ k, lookupCount (computeRiskScore rs).severityCounts k =
        rs.countP (fun r => sevKey r == k))
    ∧ (∀ k, lookupCount (computeRiskScore rs).breakdown k =
        sumWeights (rs.filter (fun r => srcKey r == k)))
    ∧ computeRiskScore [] = ⟨0, [], []⟩ := by
  refine ⟨?_, ?_, ?_, ?_⟩
  · by_cases h : rs.length = 0
    · rw [if_pos h]
      rw [List.length_eq_zero] at h
      subst h
      simp [computeRiskScore, scoreLoop]
    · rw [if_neg h]
      have hpos : 0 < rs.length := Nat.pos_of_ne_zero h
      have hproj : (computeRiskScore rs).overallScore =
          min 100 (round (((scoreLoop rs [] [] 0).2.2 : ℚ) / (rs.length : ℚ) * 25)) := by
        simp [computeRiskScore, hpos]
      rw [hproj, scoreLoop_w rs [] [] 0, Nat.zero_add, sumWeights_eq_claim]
      exact min_round_eq _
  · intro k
    have h := scoreLoop_sev rs [] [] 0 k
    simpa [computeRiskScore, lookupCount, alookup] using h
  · intro k
    have h := scoreLoop_bd rs [] [] 0 k
    simpa [computeRiskScore, lookupCount, alookup] using h
  · simp [computeRiskScore, scoreLoop]

/- ### Claim C10 -/

/-- C10: for every list of risks, the sum of the breakdown values equals
the weighted sum the scorer accumulates for the overall score, which in
turn equals the sum over the severityCounts entries of severity weight
times count. -/
theorem computeRiskScore_breakdown_sum (rs : List Risk) :
    sumValues (computeRiskScore rs).breakdown = (scoreLoop rs [] [] 0).2.2
    ∧ (scoreLoop rs [] [] 0).2.2 = weightSumOf (computeRiskScore rs).severityCounts := by
  constructor
  · have h1 := scoreLoop_vals rs [] [] 0
    have h2 := scoreLoop_w rs [] [] 0
    have hproj : (computeRiskScore rs).breakdown = (scoreLoop rs [] [] 0).2.1 := by
      simp [computeRiskScore]
    rw [hproj, h1, h2]
    simp [sumValues]
  · have h1 := scoreLoop_wsum rs [] [] 0
    have h2 := scoreLoop_w rs [] [] 0
    have hproj : (computeRiskScore rs).severityCounts = (scoreLoop rs [] [] 0).1 := by
      simp [computeRiskScore]
    rw [hproj, h1, h2]
    simp [weightSumOf]

/- ### Source registry lemmas -/

theorem alookup_mapSet {α : Type} (m : List (String × α)) (k k' : String) (v : α) :
    alookup (mapSet m k v) k' = if k = k' then some v else alookup m k' := by
  induction m with
  | nil =>
    simp only [mapSet, alookup]
  | cons a t ih =>
    obtain ⟨ka, va⟩ := a
    simp only [mapSet]
    by_cases h1 : ka = k
    · subst h1
      rw [if_pos rfl]
      simp only [alookup]
      by_cases h2 : ka = k' <;> simp [h2]
    · rw [if_neg h1]
      simp only [alookup, ih]
      by_cases h2 : ka = k'
      · subst h2
        have : ¬ k = ka := fun hk => h1 hk.symm
        simp [this]
      · simp [h2]

theorem fetch_loop_lookup {α : Type} (reg : String → Option (Connector α))
    (types : List String) :
    ∀ acc t, alookup (types.foldl (fun acc u => mapSet acc u (fetchOne reg u)) acc) t =
      if t ∈ types then some (fetchOne reg t) else alookup acc t := by
  induction types with
  | nil => intro acc t; simp
  | cons u rest ih =>
    intro acc t
    rw [List.foldl_cons, ih]
    by_cases h1 : t ∈ rest
    · simp [h1]
    · rw [if_neg h1, alookup_mapSet]
      by_cases h2 : u = t
      · subst h2
        simp
      · have : ¬ t ∈ u :: rest := by
          intro hm
          rcases List.mem_cons.mp hm with h | h
          · exact h2 h.symm
          · exact h1 h
        simp [h2, this]

theorem fetchByTypes_lookup {α : Type} (reg : String → Option (Connector α))
    (types : List String) (t : String) :
    alookup (fetchDataSourcesByTypes reg types) t =
      if t ∈ types then some (fetchOne reg t) else none := by
  rw [fetchDataSourcesByTypes, fetch_loop_lookup]
  simp [alookup]

theorem mem_keysOf_iff {α : Type} (m : List (String × α)) (t : String) :
    t ∈ keysOf m ↔ (alookup m t).isSome := by
  induction m with
  | nil => simp [keysOf, alookup]
  | cons a rest ih =>
    obtain ⟨ka, va⟩ := a
    simp only [keysOf, List.map_cons, List.mem_cons, alookup] at ih ⊢
    by_cases h : ka = t
    · subst h; simp
    · have : ¬ t = ka := fun hk => h hk.symm
      simp [h, this, ih]

theorem keysOf_mapSet {α : Type} (m : List (String × α)) (k : String) (v : α) :
    keysOf (mapSet m k v) =
      if k ∈ keysOf m then keysOf m else keysOf m ++ [k] := by
  induction m with
  | nil => simp [mapSet, keysOf]
  | cons a rest ih =>
    obtain ⟨ka, va⟩ := a
    simp only [mapSet, keysOf, List.map_cons] at ih ⊢
    by_cases h1 : ka = k
    · subst h1
      simp
    · rw [if_neg h1, List.map_cons, ih]
      have hne : ¬ k = ka := fun hk => h1 hk.symm
      by_cases h2 : k ∈ List.map Prod.fst rest <;>
        simp [h2, List.mem_cons, hne]

theorem nodup_keys_mapSet {α : Type} (m : List (String × α)) (k : String) (v : α)
    (h : (keysOf m).Nodup) : (keysOf (mapSet m k v)).Nodup := by
  rw [keysOf_mapSet]
  by_cases hm : k ∈ keysOf m
  · simpa [hm] using h
  · simp only [hm, if_false]
    simp [List.nodup_append, h, hm]

theorem nodup_keys_fetch_loop {α : Type} (reg : String → Option (Connector α))
    (types : List String) :
    ∀ acc, (keysOf acc).Nodup →
      (keysOf (types.foldl (fun acc u => mapSet acc u (fetchOne reg u)) acc)).Nodup := by
  induction types with
  | nil => intro acc h; simpa using h
  | cons u rest ih =>
    intro acc h
    rw [List.foldl_cons]
    exact ih _ (nodup_keys_mapSet _ _ _ h)

/- ### Claim C3 -/

/-- C3: for every requested set of source types, fetchDataSourcesByTypes
maps a type with no registered connector to an empty list, a type whose
connector reports unavailable to an empty list, a type whose availability
check or fetch throws to an empty list for that type only, and every other
requested type to the full fetched list of its connector; the value for a
type depends only on that type's connector, so one failing source never
aborts collection for the other sources. -/
theorem fetchByTypes_isolation {α : Type} (reg : String → Option (Connector α))
    (types : List String) (t : String) (ht : t ∈ types) :
    (reg t = none →
        alookup (fetchDataSourcesByTypes reg types) t = some [])
    ∧ (∀ c e, reg t = some c → c.isAvailable = .error e →
        alookup (fetchDataSourcesByTypes reg types) t = some [])
    ∧ (∀ c, reg t = some c → c.isAvailable = .ok false →
        alookup (fetchDataSourcesByTypes reg types) t = some [])
    ∧ (∀ c e, reg t = some c → c.isAvailable = .ok true → c.fetchData = .error e →
        alookup (fetchDataSourcesByTypes reg types) t = some [])
    ∧ (∀ c d, reg t = some c → c.isAvailable = .ok true → c.fetchData = .ok d →
        alookup (fetchDataSourcesByTypes reg types) t = some d) := by
  rw [fetchByTypes_lookup, if_pos ht]
  refine ⟨?_, ?_, ?_, ?_, ?_⟩
  · intro h; simp [fetchOne, h]
  · intro c e hc ha; simp [fetchOne, hc, ha]
  · intro c hc ha; simp [fetchOne, hc, ha]
  · intro c e hc ha hf; simp [fetchOne, hc, ha, hf]
  · intro c d hc ha hf; simp [fetchOne, hc, ha, hf]

/- ### Claim C9 -/

/-- C9: for every requested type list and registry state, the key set of
the map returned by fetchDataSourcesByTypes is exactly the set of
requested types: the keys are duplicate-free (duplicate requests collapse)
and a type is a key exactly when it was requested. -/
theorem fetchByTypes_keys {α : Type} (reg : String → Option (Connector α))
    (types : List String) :
    (keysOf (fetchDataSourcesByTypes reg types)).Nodup
    ∧ (∀ t, t ∈ keysOf (fetchDataSourcesByTypes reg types) ↔ t ∈ types) := by
  constructor
  · exact nodup_keys_fetch_loop reg types [] (by simp [keysOf])
  · intro t
    rw [mem_keysOf_iff, fetchByTypes_lookup]
    by_cases h : t ∈ types <;> simp [h]

/- ### Claim C6 -/

/-- C6: with no analysis backend, a weather record whose condition is
Storm or Rain yields exactly one risk of severity high with affectedRegion
city ++ ", " ++ country and the fixed estimated cost 50000; a weather
record with any other condition yields no risks. -/
theorem weather_mock_spec (d : DataItem) :
    ((d.condition = some "Storm" ∨ d.condition = some "Rain") →
      ∀ city country, d.city = some city → d.country = some country →
        (mockAnalyzeDataItem "weather" d).risks.length = 1 ∧
        ∀ r ∈ (mockAnalyzeDataItem "weather" d).risks,
          r.severity = some RiskSeverity.high ∧
          r.affectedRegion = some (city ++ ", " ++ country) ∧
          r.estimatedCost = some 50000)
    ∧ ((d.condition ≠ some "Storm" ∧ d.condition ≠ some "Rain") →
      (mockAnalyzeDataItem "weather" d).risks = []) := by
  have hrisks : (mockAnalyzeDataItem "weather" d).risks = weatherMock d := by
    simp [mockAnalyzeDataItem]
  constructor
  · intro hcond city country hc hco
    rw [hrisks, weatherMock, if_pos hcond]
    refine ⟨rfl, ?_⟩
    intro r hr
    rw [List.mem_singleton] at hr
    subst hr
    exact ⟨rfl, by simp [jsStr, hc, hco], rfl⟩
  · intro hcond
    rw [hrisks, weatherMock, if_neg]
    exact fun h => h.elim hcond.1 hcond.2

/-- Witness for C6 at the spec test vector: the Chennai Storm record. -/
theorem weather_mock_spec_witness :
    (mockAnalyzeDataItem "weather" chennaiStorm).risks.length = 1 ∧
    ∀ r ∈ (mockAnalyzeDataItem "weather" chennaiStorm).risks,
      r.severity = some RiskSeverity.high ∧
      r.affectedRegion = some ("Chennai" ++ ", " ++ "IN") ∧
      r.estimatedCost = some 50000 :=
  (weather_mock_spec chennaiStorm).1 (Or.inl rfl) "Chennai" "IN" rfl rfl

/- ### Claim C7 -/

/-- C7 counterexample: a record whose description contains crisis but
whose non-empty title has no keyword yields no risks under the
global_risk context, contradicting the claim that a keyword in the title
or in the description yields exactly one risk. -/
theorem globalNews_titleOrDescription_counterexample :
    containsStr (lowerStr (jsStr quietTitleCrisisDescription.description)) "crisis" = true
    ∧ mockAnalyzeItemRisksOnly "global_news" quietTitleCrisisDescription
        .global_risk = [] := by
  exact ⟨by decide, by decide⟩

/-- C7 amended: under the global_risk context the mock searches only the
first truthy of (title, description); when that selected text is non-empty
and contains disruption, crisis or shortage case-insensitively the result
is exactly one risk of severity medium with affectedRegion Global, and
otherwise no risks. -/
theorem globalNews_mock_spec (d : DataItem) :
    ((0 < (jsOrStr d.title (jsOrStr d.description "")).length ∧
        (containsStr (lowerStr (jsOrStr d.title (jsOrStr d.description ""))) "disruption" ||
         containsStr (lowerStr (jsOrStr d.title (jsOrStr d.description ""))) "crisis" ||
         containsStr (lowerStr (jsOrStr d.title (jsOrStr d.description ""))) "shortage") = true) →
      (mockAnalyzeItemRisksOnly "global_news" d .global_risk).length = 1 ∧
      ∀ r ∈ mockAnalyzeItemRisksOnly "global_news" d .global_risk,
        r.severity = some RiskSeverity.medium ∧ r.affectedRegion = some "Global")
    ∧ (¬(0 < (jsOrStr d.title (jsOrStr d.description "")).length ∧
        (containsStr (lowerStr (jsOrStr d.title (jsOrStr d.description ""))) "disruption" ||
         containsStr (lowerStr (jsOrStr d.title (jsOrStr d.description ""))) "crisis" ||
         containsStr (lowerStr (jsOrStr d.title (jsOrStr d.description ""))) "shortage") = true) →
      mockAnalyzeItemRisksOnly "global_news" d .global_risk = []) := by
  have hrisks : mockAnalyzeItemRisksOnly "global_news" d .global_risk =
      globalRiskMock d := by
    simp [mockAnalyzeItemRisksOnly]
  constructor
  · intro h
    rw [hrisks]
    simp only [globalRiskMock]
    rw [if_pos h]
    refine ⟨rfl, ?_⟩
    intro r hr
    rw [List.mem_singleton] at hr
    subst hr
    exact ⟨rfl, rfl⟩
  · intro h
    rw [hrisks]
    simp only [globalRiskMock]
    rw [if_neg h]

/-- Witness for amended C7 at a concrete DISRUPTION headline. -/
theorem globalNews_mock_spec_witness :
    (mockAnalyzeItemRisksOnly "global_news" disruptionHeadline .global_risk).length = 1 ∧
    ∀ r ∈ mockAnalyzeItemRisksOnly "global_news" disruptionHeadline .global_risk,
      r.severity = some RiskSeverity.medium ∧ r.affectedRegion = some "Global" :=
  (globalNews_mock_spec disruptionHeadline).1 (by decide)

/- ### Claim C4 -/

/-- C4: a cycle trigger arriving while the single-flight guard is set
returns without starting a second cycle: the scheduled entry point and the
manual entry point (with or without an OEM id) both leave the whole state,
including the status record and its counters, unchanged and raise nothing. -/
theorem singleFlight_guard (env : AgentEnv) (s : AgentState) (oid : Option String)
    (h : s.isRunning = true) :
    monitorAndAnalyze env s = s ∧ triggerManualAnalysis env s oid = (s, none) := by
  constructor
  · rw [monitorAndAnalyze, if_pos h]
  · rw [triggerManualAnalysis.eq_def, if_pos h]

/-- Witness for C4: a concrete running state rejects both triggers. -/
theorem singleFlight_guard_witness :
    monitorAndAnalyze envSimple stateRunning = stateRunning ∧
    triggerManualAnalysis envSimple stateRunning (some "oem1") =
      (stateRunning, none) :=
  singleFlight_guard envSimple stateRunning (some "oem1") rfl

/- ### Claim C5 -/

theorem oemLoop_append (env : AgentEnv) (l1 l2 : List Oem) :
    ∀ st, oemLoop env (l1 ++ l2) st =
      match oemLoop env l1 st with
      | (st', none) => oemLoop env l2 st'
      | (st', some m) => (st', some m) := by
  induction l1 with
  | nil => intro st; simp [oemLoop]
  | cons o rest ih =>
    intro st
    rw [List.cons_append]
    cases hs : env.scopeOf o.id with
    | none =>
      simp only [oemLoop, hs]
      exact ih st
    | some scope =>
      cases hr : env.runOem scope st with
      | mk st' err =>
        cases err with
        | none =>
          simp only [oemLoop, hs, hr]
          exact ih st'
        | some m =>
          simp only [oemLoop, hs, hr]

theorem oemLoop_env_oems (env : AgentEnv) (oems2 : List Oem) (l : List Oem) :
    ∀ st, oemLoop { env with oems := oems2 } l st = oemLoop env l st := by
  induction l with
  | nil => intro st; rfl
  | cons o rest ih =>
    intro st
    cases hs : env.scopeOf o.id with
    | none =>
      simp only [oemLoop, hs]
      exact ih st
    | some scope =>
      cases hr : env.runOem scope st with
      | mk st' err =>
        cases err with
        | none =>
          simp only [oemLoop, hs, hr]
          exact ih st'
        | some m =>
          simp only [oemLoop, hs, hr]

/-- C5 counterexample: with a store whose run throws boom, the manual
single-OEM entry point propagates the exception and releases the guard
but leaves the status record in the monitoring state it had when the
exception was raised: the error state is never written, contradicting the
claim that every entry point records the error state. -/
theorem manualRun_noErrorStatus_counterexample :
    (triggerManualAnalysis envBoom stateIdle (some "oem1")).2 = some "boom"
    ∧ (triggerManualAnalysis envBoom stateIdle (some "oem1")).1.isRunning = false
    ∧ ((triggerManualAnalysis envBoom stateIdle (some "oem1")).1.store.statusRec.map
        AgentStatusRec.status) = some AgentStatus.monitoring
    ∧ ((triggerManualAnalysis envBoom stateIdle (some "oem1")).1.store.statusRec.map
        AgentStatusRec.status) ≠ some AgentStatus.error := by
  refine ⟨by decide, by decide, by decide, by decide⟩

/-- C5 amended: an unhandled exception in a per-OEM run aborts the cycle.
In the scheduled all-OEMs entry point the coordinator writes the error
state with the exception message, releases the guard, and processes no
further OEM (the result is independent of the remaining OEM list).  In the
manual single-OEM entry point the guard is released, processing stops, and
the exception propagates to the caller; the status record keeps whatever
value the failed run left and the coordinator writes no error state. -/
theorem cycleFailure_handling (env : AgentEnv) (s : AgentState)
    (hrun : s.isRunning = false) :
    (∀ pre o rest scope st1 st2 m,
      env.oems = pre ++ o :: rest →
      oemLoop env pre s.store = (st1, none) →
      env.scopeOf o.id = some scope →
      env.runOem scope st1 = (st2, some m) →
      (monitorAndAnalyze env s =
        { isRunning := false,
          store := updateStatusRec st2 .error (some ("Error: " ++ m)) }
       ∧ ∀ rest2, monitorAndAnalyze { env with oems := pre ++ o :: rest2 } s =
          monitorAndAnalyze env s))
    ∧ (∀ oid scope st2 m,
      env.scopeOf oid = some scope →
      env.runOem scope (updateStatusRec s.store .monitoring
        (some ("Manual run for OEM: " ++ scope.oemName))) = (st2, some m) →
      triggerManualAnalysis env s (some oid) =
        ({ isRunning := false, store := st2 }, some m)) := by
  have hflag : ¬ s.isRunning = true := by
    rw [hrun]
    exact Bool.false_ne_true
  constructor
  · intro pre o rest scope st1 st2 m hoems hpre hscope hthrow
    have hloop : ∀ l2 : List Oem,
        oemLoop env (pre ++ o :: l2) s.store = (st2, some m) := by
      intro l2
      rw [oemLoop_append, hpre]
      simp only [oemLoop, hscope, hthrow]
    constructor
    · rw [monitorAndAnalyze, if_neg hflag]
      have hne : env.oems.isEmpty = false := by
        rw [hoems]
        simp
      rw [hne, if_neg Bool.false_ne_true, hoems, hloop rest]
    · intro rest2
      rw [monitorAndAnalyze, if_neg hflag]
      rw [monitorAndAnalyze, if_neg hflag]
      have hne : env.oems.isEmpty = false := by
        rw [hoems]
        simp
      have hne2 : (({ env with oems := pre ++ o :: rest2 } :
          AgentEnv).oems).isEmpty = false := by simp
      rw [hne2, if_neg Bool.false_ne_true, hne, if_neg Bool.false_ne_true]
      have hoems2 : ({ env with oems := pre ++ o :: rest2 } : AgentEnv).oems =
          pre ++ o :: rest2 := rfl
      rw [hoems2, hoems, oemLoop_env_oems, hloop rest2, hloop rest]
  · intro oid scope st2 m hscope hthrow
    rw [triggerManualAnalysis.eq_def, if_neg hflag]
    simp only [hscope, hthrow]

/-- Witness for amended C5 at the concrete throwing environment. -/
theorem cycleFailure_handling_witness :
    (monitorAndAnalyze envBoom stateIdle =
      { isRunning := false,
        store := updateStatusRec stateIdle.store .error
          (some ("Error: " ++ "boom")) })
    ∧ triggerManualAnalysis envBoom stateIdle (some "oem1") =
      ({ isRunning := false,
         store := updateStatusRec stateIdle.store .monitoring
           (some ("Manual run for OEM: " ++ scopeOem1.oemName)) }, some "boom") := by
  have h := cycleFailure_handling envBoom stateIdle rfl
  constructor
  · exact (h.1 [] ⟨"oem1", "OEM One"⟩ [] scopeOem1 stateIdle.store stateIdle.store
      "boom" rfl rfl (by decide) rfl).1
  · exact h.2 "oem1" scopeOem1
      (updateStatusRec stateIdle.store .monitoring
        (some ("Manual run for OEM: " ++ scopeOem1.oemName))) "boom" (by decide) rfl

/- ### Claim C1 -/

theorem plansForRisk_addPlan (db : AgentDb) (pd : PlanData)
    (rid' oid' : Option String) (rid : String) :
    plansForRisk (addPlan db pd rid' oid').plans rid =
      plansForRisk db.plans rid ++
        (if rid' = some rid then [saveMitigationPlan pd rid' oid'] else []) := by
  simp only [addPlan, plansForRisk, List.filter_append]
  congr 1
  by_cases h : rid' = some rid
  · simp [saveMitigationPlan, h]
  · simp [saveMitigationPlan, h]

theorem plansForOpp_addPlan (db : AgentDb) (pd : PlanData)
    (rid' oid' : Option String) (oid : String) :
    plansForOpp (addPlan db pd rid' oid').plans oid =
      plansForOpp db.plans oid ++
        (if oid' = some oid then [saveMitigationPlan pd rid' oid'] else []) := by
  simp only [addPlan, plansForOpp, List.filter_append]
  congr 1
  by_cases h : oid' = some oid
  · simp [saveMitigationPlan, h]
  · simp [saveMitigationPlan, h]

theorem combined_fold_plansForRisk (now : Nat) (rid : String) :
    ∀ (groups : List (String × List Risk)) (acc : AgentDb),
      (∀ g ∈ groups, ¬ g.2.head?.map Risk.id = some rid) →
      plansForRisk (groups.foldl (combinedStep now) acc).plans rid =
        plansForRisk acc.plans rid := by
  intro groups
  induction groups with
  | nil => intro acc _; rfl
  | cons g rest ih =>
    intro acc h
    rw [List.foldl_cons,
      ih _ (fun g' hg' => h g' (List.mem_cons_of_mem _ hg')),
      combinedStep, plansForRisk_addPlan]
    simp [h g (List.mem_cons_self _ _)]

theorem combined_fold_plansForOpp (now : Nat) (oid : String) :
    ∀ (groups : List (String × List Risk)) (acc : AgentDb),
      plansForOpp (groups.foldl (combinedStep now) acc).plans oid =
        plansForOpp acc.plans oid := by
  intro groups
  induction groups with
  | nil => intro acc; rfl
  | cons g rest ih =>
    intro acc
    rw [List.foldl_cons, ih, combinedStep, plansForOpp_addPlan]
    simp

theorem indiv_fold_plansForRisk (now : Nat) (db1 : AgentDb)
    (groups : List (String × List Risk)) (rid : String)
    (hguard : 0 < (plansForRisk db1.plans rid).length) :
    ∀ (rs : List Risk) (acc : AgentDb),
      plansForRisk (rs.foldl (indivStep now db1 groups) acc).plans rid =
        plansForRisk acc.plans rid := by
  intro rs
  induction rs with
  | nil => intro acc; rfl
  | cons r rest ih =>
    intro acc
    rw [List.foldl_cons, ih, indivStep]
    by_cases h1 : 0 < (plansForRisk db1.plans r.id).length
    · rw [if_pos h1]
    · rw [if_neg h1]
      by_cases h2 : hasGroupKey groups (supplierKey r) = true
      · rw [if_pos h2]
      · rw [if_neg h2, plansForRisk_addPlan]
        have hne : ¬ (some r.id : Option String) = some rid := by
          intro hr
          rw [Option.some.inj hr] at h1
          exact h1 hguard
        simp [hne]

theorem indiv_fold_plansForOpp (now : Nat) (db1 : AgentDb)
    (groups : List (String × List Risk)) (oid : String) :
    ∀ (rs : List Risk) (acc : AgentDb),
      plansForOpp (rs.foldl (indivStep now db1 groups) acc).plans oid =
        plansForOpp acc.plans oid := by
  intro rs
  induction rs with
  | nil => intro acc; rfl
  | cons r rest ih =>
    intro acc
    rw [List.foldl_cons, ih, indivStep]
    by_cases h1 : 0 < (plansForRisk db1.plans r.id).length
    · rw [if_pos h1]
    · rw [if_neg h1]
      by_cases h2 : hasGroupKey groups (supplierKey r) = true
      · rw [if_pos h2]
      · rw [if_neg h2, plansForOpp_addPlan]
        simp

theorem opp_fold_plansForRisk (now : Nat) (db2 : AgentDb) (rid : String) :
    ∀ (opps : List Opportunity) (acc : AgentDb),
      plansForRisk (opps.foldl (oppStep now db2) acc).plans rid =
        plansForRisk acc.plans rid := by
  intro opps
  induction opps with
  | nil => intro acc; rfl
  | cons p rest ih =>
    intro acc
    rw [List.foldl_cons, ih, oppStep]
    by_cases h1 : (plansForOpp db2.plans p.id).length = 0
    · rw [if_pos h1, plansForRisk_addPlan]
      simp
    · rw [if_neg h1]

theorem opp_fold_plansForOpp (now : Nat) (db2 : AgentDb) (oid : String)
    (hguard : ¬ (plansForOpp db2.plans oid).length = 0) :
    ∀ (opps : List Opportunity) (acc : AgentDb),
      plansForOpp (opps.foldl (oppStep now db2) acc).plans oid =
        plansForOpp acc.plans oid := by
  intro opps
  induction opps with
  | nil => intro acc; rfl
  | cons p rest ih =>
    intro acc
    rw [List.foldl_cons, ih, oppStep]
    by_cases h1 : (plansForOpp db2.plans p.id).length = 0
    · rw [if_pos h1, plansForOpp_addPlan]
      have hne : ¬ (some p.id : Option String) = some oid := by
        intro hp
        rw [Option.some.inj hp] at h1
        exact hguard h1
      simp [hne]
    · rw [if_neg h1]

/-- C1 counterexample: a detected risk attributed to a supplier that
already carries one mitigation plan receives a second, combined, plan when
the cycle's plan-generation stage runs again: the combined per-supplier
path has no existing-plan guard. -/
theorem combinedPlan_duplicate_counterexample :
    (plansForRisk dbAcme.plans "r1").length = 1
    ∧ (plansForRisk (runPlansAndScore 0 dbAcme "oem1").plans "r1").length = 2 := by
  exact ⟨rfl, rfl⟩

/-- C1 amended: the existing-plan idempotency guard holds for the
individual per-risk path and for the opportunity path, but not for the
combined per-supplier path.  A risk that already has at least one plan and
is not the first member of a supplier group keeps exactly its plans across
a cycle, and an opportunity that already has at least one plan always
keeps exactly its plans; only the head risk of a supplier group can
receive an additional (combined) plan despite existing plans. -/
theorem plan_guard_amended (now : Nat) (db : AgentDb) (oemId : String)
    (rid oid : String) :
    (plansForRisk db.plans rid ≠ [] → rid ∉ combinedHeadIds db oemId →
      plansForRisk (runPlansAndScore now db oemId).plans rid =
        plansForRisk db.plans rid)
    ∧ (plansForOpp db.plans oid ≠ [] →
      plansForOpp (runPlansAndScore now db oemId).plans oid =
        plansForOpp db.plans oid) := by
  set A := detectedRisksOf db oemId with hA
  set G := risksBySupplier A with hG
  set dbS : AgentDb := { db with riskScores := db.riskScores ++
      [{ oemId := oemId, score := computeRiskScore A,
         riskIds := A.map Risk.id }] } with hdbS
  set db1 := G.foldl (combinedStep now) dbS with hdb1
  set db2 := A.foldl (indivStep now db1 G) db1 with hdb2
  set opps := db.opportunities.filter
      (fun p => p.status = .identified ∧ p.oemId = some oemId) with hopps
  have hrun : runPlansAndScore now db oemId = opps.foldl (oppStep now db2) db2 := rfl
  constructor
  · intro hne hhead
    have hGmem : ∀ g ∈ G, ¬ g.2.head?.map Risk.id = some rid := by
      intro g hg hcontra
      exact hhead (by
        rw [combinedHeadIds]
        exact List.mem_filterMap.mpr ⟨g, hg, hcontra⟩)
    have e1 : plansForRisk db1.plans rid = plansForRisk db.plans rid := by
      rw [hdb1, combined_fold_plansForRisk now rid G dbS hGmem, hdbS]
    have hg1 : 0 < (plansForRisk db1.plans rid).length := by
      rw [e1]
      exact List.length_pos.mpr hne
    rw [hrun, opp_fold_plansForRisk now db2 rid opps db2, hdb2,
      indiv_fold_plansForRisk now db1 G rid hg1 A db1, e1]
  · intro hne
    have e1 : plansForOpp db1.plans oid = plansForOpp db.plans oid := by
      rw [hdb1, combined_fold_plansForOpp now oid G dbS, hdbS]
    have e2 : plansForOpp db2.plans oid = plansForOpp db.plans oid := by
      rw [hdb2, indiv_fold_plansForOpp now db1 G oid A db1, e1]
    have hg2 : ¬ (plansForOpp db2.plans oid).length = 0 := by
      rw [e2]
      intro hz
      exact hne (List.length_eq_zero.mp hz)
    rw [hrun, opp_fold_plansForOpp now db2 oid hg2 opps db2, e2]

/-- Witness for amended C1: a risk with no supplier and an opportunity,
each already carrying one plan, keep exactly their plans across the
plan-generation stage. -/
theorem plan_guard_amended_witness :
    plansForRisk (runPlansAndScore 0 dbGuarded "oem1").plans "r2" =
      plansForRisk dbGuarded.plans "r2"
    ∧ plansForOpp (runPlansAndScore 0 dbGuarded "oem1").plans "p1" =
      plansForOpp dbGuarded.plans "p1" := by
  have h := plan_guard_amended 0 dbGuarded "oem1" "r2" "p1"
  exact ⟨h.1 (by decide) (by decide), h.2 (by decide)⟩

/- ### Claim C8 -/

theorem jsDedup_loop_nodup {α : Type} [DecidableEq α] (l : List α) :
    ∀ acc : List α, acc.Nodup →
      (l.foldl (fun acc x => if x ∈ acc then acc else acc ++ [x]) acc).Nodup := by
  induction l with
  | nil => intro acc h; simpa using h
  | cons x rest ih =>
    intro acc h
    rw [List.foldl_cons]
    apply ih
    by_cases hx : x ∈ acc
    · simpa [hx] using h
    · simp [hx, List.nodup_append, h]

theorem jsDedup_nodup {α : Type} [DecidableEq α] (l : List α) : (jsDedup l).Nodup :=
  jsDedup_loop_nodup l [] (by simp)

/-- C8: the tenant scope built from an OEM and its suppliers has every list
field free of duplicates, and the derived data-source parameters fall back
to the fixed default city list when the scope has no cities and no
locations and to the fixed default commodity list when the scope has no
commodities, so a tenant with no supplier-derived inputs still yields a
full parameter set. -/
theorem oemScope_dedup_defaults (oemId : String) (oem : Oem)
    (suppliers : List Supplier) (scope : OemScope)
    (hs : getOemScope oemId (some oem) suppliers = some scope) :
    scope.supplierNames.Nodup ∧ scope.locations.Nodup ∧ scope.cities.Nodup
    ∧ scope.countries.Nodup ∧ scope.regions.Nodup ∧ scope.commodities.Nodup
    ∧ (scope.cities = [] → scope.locations = [] →
        (buildDataSourceParams scope).cities = defaultCities)
    ∧ (scope.commodities = [] →
        (buildDataSourceParams scope).commodities = defaultCommodities) := by
  simp only [getOemScope, Option.some.injEq] at hs
  subst hs
  refine ⟨jsDedup_nodup _, jsDedup_nodup _, jsDedup_nodup _, jsDedup_nodup _,
    jsDedup_nodup _, jsDedup_nodup _, ?_, ?_⟩
  · intro h1 h2
    simp only at h1 h2
    simp [buildDataSourceParams, h1, h2]
  · intro h1
    simp only at h1
    simp [buildDataSourceParams, h1]

/-- Witness for C8 at a supplier-less OEM: the empty scope is returned and
the derived parameters use the default city and commodity lists. -/
theorem oemScope_dedup_defaults_witness :
    scopeOem1.supplierNames.Nodup ∧ scopeOem1.locations.Nodup
    ∧ scopeOem1.cities.Nodup ∧ scopeOem1.countries.Nodup
    ∧ scopeOem1.regions.Nodup ∧ scopeOem1.commodities.Nodup
    ∧ (scopeOem1.cities = [] → scopeOem1.locations = [] →
        (buildDataSourceParams scopeOem1).cities = defaultCities)
    ∧ (scopeOem1.commodities = [] →
        (buildDataSourceParams scopeOem1).commodities = defaultCommodities) :=
  oemScope_dedup_defaults "oem1" ⟨"oem1", "OEM One"⟩ [] scopeOem1 rfl

/- ### Witness for C3 -/

/-- Witness for C3 at a registry with one healthy and one throwing
connector: the failing type yields an empty list and the healthy type the
full list. -/
theorem fetchByTypes_isolation_witness :
    alookup (fetchDataSourcesByTypes regWitness ["weather", "news"]) "weather" =
      some []
    ∧ alookup (fetchDataSourcesByTypes regWitness ["weather", "news"]) "news" =
      some [7, 8] := by
  constructor
  · exact (fetchByTypes_isolation regWitness ["weather", "news"] "weather"
      (by decide)).2.2.2.1 ⟨Except.ok true, Except.error "fetch failed"⟩
      "fetch failed" rfl rfl rfl
  · exact (fetchByTypes_isolation regWitness ["weather", "news"] "news"
      (by decide)).2.2.2.2 ⟨Except.ok true, Except.ok [7, 8]⟩ [7, 8] rfl rfl rfl
